/- Verification of photutils/aperture_funcs.py: a shallow embedding of
   find_fluxvar, do_circular_photometry, do_elliptical_photometry and
   do_annulus_photometry, with theorems about the spec's claims.

   Modelling conventions:
   * 2-D numpy arrays become functions `Grid := ℕ → ℕ → ℚ`; pixel values
     are exact rationals (float rounding is out of scope).
   * NaN flux entries become `none : Option ℚ`; `np.isnan` is `Option.isNone`.
   * `circular_overlap_grid` / `elliptical_overlap_grid` live in the
     geometry module, which is not part of the analysed source; they are
     passed in as opaque function parameters (`CircOG`, `EllOG`) producing
     the overlap-fraction grid of a window, indexed relative to the window.
   * Python exceptions become an explicit `PyExc` value returned through
     `Except`; a warning is returned as the list of offending positions.
   * `np.sqrt` at the return boundary becomes `Real.sqrt` elementwise.
-/
import Mathlib

namespace Photutils

/-- A 2-D array of exact pixel values, indexed (row, column). -/
abbrev Grid := ℕ → ℕ → ℚ

/-- np.sum of a 2-D window of shape (ny, nx): sum of g j i over
    0 ≤ j < ny, 0 ≤ i < nx. -/
def grid_sum (g : Grid) (ny nx : ℕ) : ℚ :=
  ((List.range ny).map fun j => ((List.range nx).map fun i => g j i).sum).sum

/-- Python's int() applied to an exact rational: truncation toward zero. -/
def py_int (q : ℚ) : ℤ :=
  if 0 ≤ q then ⌊q⌋ else ⌈q⌉

/-- Row/column index of the window-center pixel used by the aggregate error
    branch: int((lo + hi) / 2 + 0.5), as in find_fluxvar. -/
def center_index (lo hi : ℕ) : ℕ :=
  (py_int (((lo : ℚ) + (hi : ℚ)) / 2 + 1 / 2)).toNat

/-- Embedding of find_fluxvar (aperture_funcs.py lines 16-42).  `data`,
    `error` and `gain` are whole-image grids; `fraction` is the overlap
    grid of the window [jmin,jmax) × [imin,imax), indexed relative to the
    window; `flux` is the already-computed scalar flux.  Returns the
    variance (not standard deviation) for one position. -/
def find_fluxvar (data : Grid) (fraction : Grid) (error : Grid) (flux : ℚ)
    (gain : Option Grid) (imin imax jmin jmax : ℕ)
    (pixelwise_error : Bool) : ℚ :=
  if pixelwise_error then
    let subvariance : Grid := fun j i =>
      (error (jmin + j) (imin + i)) ^ 2 +
        match gain with
        | some g => data (jmin + j) (imin + i) / g (jmin + j) (imin + i)
        | none => 0
    max (grid_sum (fun j i => subvariance j i * fraction j i)
          (jmax - jmin) (imax - imin)) 0
  else
    let jc := center_index jmin jmax
    let ic := center_index imin imax
    let local_error := error jc ic
    let base := max (local_error ^ 2 * grid_sum fraction (jmax - jmin) (imax - imin)) 0
    match gain with
    | some g => base + flux / g jc ic
    | none => base

/-- Embedding of the method-resolution if-chain that both single-aperture
    photometers run before their per-position loop (lines 72-79 and
    134-141): returns (use_exact, effective subpixels). -/
def resolve_method (method : String) (subpixels : ℕ) : ℕ × ℕ :=
  if method = "center" then (0, 1)
  else if method = "subpixel" then (0, subpixels)
  else (1, 1)

/-- The per-position geometry produced by get_phot_extents (computed by the
    caller, outside the analysed source): the out-of-data filter, the
    integer pixel extent arrays and the rational photometry extent arrays. -/
structure Extents where
  ood_filter : List Bool
  x_min : List ℕ
  x_max : List ℕ
  y_min : List ℕ
  y_max : List ℕ
  x_pmin : List ℚ
  x_pmax : List ℚ
  y_pmin : List ℚ
  y_pmax : List ℚ

/-- circular_overlap_grid as an opaque parameter: arguments are
    (x_pmin, x_pmax, y_pmin, y_pmax, nx, ny, radius, use_exact, subpixels)
    and the result is the window-relative fraction grid. -/
abbrev CircOG := ℚ → ℚ → ℚ → ℚ → ℕ → ℕ → ℚ → ℕ → ℕ → Grid

/-- elliptical_overlap_grid as an opaque parameter: arguments are
    (x_pmin, x_pmax, y_pmin, y_pmax, nx, ny, a, b, theta, use_exact,
    subpixels). -/
abbrev EllOG := ℚ → ℚ → ℚ → ℚ → ℕ → ℕ → ℚ → ℚ → ℚ → ℕ → ℕ → Grid

/-- The fraction grid the circular photometer passes to position i. -/
def circ_fraction (og : CircOG) (extents : Extents) (radius : ℚ)
    (use_exact subpixels : ℕ) (i : ℕ) : Grid :=
  og (extents.x_pmin.getD i 0) (extents.x_pmax.getD i 0)
     (extents.y_pmin.getD i 0) (extents.y_pmax.getD i 0)
     (extents.x_max.getD i 0 - extents.x_min.getD i 0)
     (extents.y_max.getD i 0 - extents.y_min.getD i 0)
     radius use_exact subpixels

/-- The fraction grid the elliptical photometer passes to position i. -/
def ell_fraction (og : EllOG) (extents : Extents) (a b theta : ℚ)
    (use_exact subpixels : ℕ) (i : ℕ) : Grid :=
  og (extents.x_pmin.getD i 0) (extents.x_pmax.getD i 0)
     (extents.y_pmin.getD i 0) (extents.y_pmax.getD i 0)
     (extents.x_max.getD i 0 - extents.x_min.getD i 0)
     (extents.y_max.getD i 0 - extents.y_min.getD i 0)
     a b theta use_exact subpixels

/-- np.sum(data[y_min:y_max, x_min:x_max] * fraction) for position i. -/
def aperture_flux_at (data : Grid) (fraction : Grid) (extents : Extents)
    (i : ℕ) : ℚ :=
  grid_sum
    (fun j k => data (extents.y_min.getD i 0 + j) (extents.x_min.getD i 0 + k)
      * fraction j k)
    (extents.y_max.getD i 0 - extents.y_min.getD i 0)
    (extents.x_max.getD i 0 - extents.x_min.getD i 0)

/-- positions[ood_filter]: the positions flagged out-of-data, the content of
    the emitted warning. -/
def ood_positions (positions : List (ℚ × ℚ)) (ood : List Bool) :
    List (ℚ × ℚ) :=
  (List.range positions.length).filterMap fun i =>
    if ood.getD i false then some (positions.getD i (0, 0)) else none

/-- The value a single-aperture photometer returns: a Python tuple of
    length one (flux only) or two (flux, np.sqrt(fluxvar)).  Flux entries
    are NaN (`none`) or exact values; fluxerr entries are real because of
    the square root. -/
inductive PhotReturn where
  | one (flux : List (Option ℚ))
  | two (flux : List (Option ℚ)) (fluxerr : List ℝ)

/-- Element 0 of the returned tuple: the flux sequence. -/
def PhotReturn.fluxes : PhotReturn → List (Option ℚ)
  | .one f => f
  | .two f _ => f

/-- Element 1 of the returned tuple when present; [] for a 1-tuple. -/
def PhotReturn.errs : PhotReturn → List ℝ
  | .one _ => []
  | .two _ e => e

/-- Embedding of do_circular_photometry (lines 45-105).  The result pairs
    the returned tuple with the list of emitted warnings, each warning
    carrying the positions it names.  The per-position loop is rendered
    index-wise: every iteration touches only flux[i] and fluxvar[i]. -/
noncomputable def do_circular_photometry (og : CircOG) (data : Grid)
    (positions : List (ℚ × ℚ)) (extents : Extents) (radius : ℚ)
    (error : Option Grid) (gain : Option Grid) (pixelwise_error : Bool)
    (method : String) (subpixels : ℕ) :
    PhotReturn × List (List (ℚ × ℚ)) :=
  let n := positions.length
  let ood := extents.ood_filter
  let oodCount := (ood.filter id).length
  let fluxNan : List (Option ℚ) :=
    (List.range n).map fun i => if ood.getD i false then none else some 0
  let warns : List (List (ℚ × ℚ)) :=
    if oodCount ≠ 0 then [ood_positions positions ood] else []
  if oodCount ≠ 0 ∧ oodCount = n then
    (.one fluxNan, warns)
  else
    let ue := (resolve_method method subpixels).1
    let sp := (resolve_method method subpixels).2
    let fluxes : List (Option ℚ) :=
      (List.range n).map fun i =>
        if ood.getD i false then none
        else some (aperture_flux_at data (circ_fraction og extents radius ue sp i) extents i)
    match error with
    | none => (.one fluxes, warns)
    | some err =>
      let fluxvar : List ℚ :=
        (List.range n).map fun i =>
          if ood.getD i false then 0
          else
            find_fluxvar data (circ_fraction og extents radius ue sp i) err
              (aperture_flux_at data (circ_fraction og extents radius ue sp i) extents i)
              gain (extents.x_min.getD i 0) (extents.x_max.getD i 0)
              (extents.y_min.getD i 0) (extents.y_max.getD i 0) pixelwise_error
      (.two fluxes (fluxvar.map fun v => Real.sqrt (v : ℝ)), warns)

/-- Embedding of do_elliptical_photometry (lines 108-166), identical in
    structure to the circular photometer. -/
noncomputable def do_elliptical_photometry (og : EllOG) (data : Grid)
    (positions : List (ℚ × ℚ)) (extents : Extents) (a b theta : ℚ)
    (error : Option Grid) (gain : Option Grid) (pixelwise_error : Bool)
    (method : String) (subpixels : ℕ) :
    PhotReturn × List (List (ℚ × ℚ)) :=
  let n := positions.length
  let ood := extents.ood_filter
  let oodCount := (ood.filter id).length
  let fluxNan : List (Option ℚ) :=
    (List.range n).map fun i => if ood.getD i false then none else some 0
  let warns : List (List (ℚ × ℚ)) :=
    if oodCount ≠ 0 then [ood_positions positions ood] else []
  if oodCount ≠ 0 ∧ oodCount = n then
    (.one fluxNan, warns)
  else
    let ue := (resolve_method method subpixels).1
    let sp := (resolve_method method subpixels).2
    let fluxes : List (Option ℚ) :=
      (List.range n).map fun i =>
        if ood.getD i false then none
        else some (aperture_flux_at data (ell_fraction og extents a b theta ue sp i) extents i)
    match error with
    | none => (.one fluxes, warns)
    | some err =>
      let fluxvar : List ℚ :=
        (List.range n).map fun i =>
          if ood.getD i false then 0
          else
            find_fluxvar data (ell_fraction og extents a b theta ue sp i) err
              (aperture_flux_at data (ell_fraction og extents a b theta ue sp i) extents i)
              gain (extents.x_min.getD i 0) (extents.x_max.getD i 0)
              (extents.y_min.getD i 0) (extents.y_max.getD i 0) pixelwise_error
      (.two fluxes (fluxvar.map fun v => Real.sqrt (v : ℝ)), warns)

/-- A Python exception reaching the caller of do_annulus_photometry. -/
inductive PyExc where
  | valueError (msg : String)
  | indexError (msg : String)
  | typeError (msg : String)
deriving DecidableEq

/-- One piece of a str.format template: a literal or a positional field. -/
inductive FmtPiece where
  | lit (s : String)
  | field (i : ℕ)

/-- Python str.format on positional arguments: substitutes each field from
    `args`, raising IndexError when a field index is out of range. -/
def str_format (pieces : List FmtPiece) (args : List String) :
    Except PyExc String :=
  match pieces with
  | [] => .ok ""
  | .lit s :: rest =>
    match str_format rest args with
    | .ok t => .ok (s ++ t)
    | .error e => .error e
  | .field i :: rest =>
    if h : i < args.length then
      match str_format rest args with
      | .ok t => .ok (args.get ⟨i, h⟩ ++ t)
      | .error e => .error e
    else
      .error (.indexError "Replacement index out of range for positional args tuple")

/-- The message template at aperture_funcs.py lines 237-238.  The adjacent
    string literals concatenate to a template with positional fields 0 and 1,
    while format receives a single argument. -/
def annulus_mode_msg : List FmtPiece :=
  [.field 0, .lit " mode is not supported for annular photometry", .field 1]

/-- The splatted *inner_params / *outer_params tuple of the annulus call:
    a radius for the circular photometer, (a, b, theta) for the elliptical
    one. -/
inductive ApParams where
  | circ (r : ℚ)
  | ell (a b theta : ℚ)

/-- NaN-propagating elementwise subtraction of two flux entries. -/
def nanSub : Option ℚ → Option ℚ → Option ℚ
  | some a, some b => some (a - b)
  | _, _ => none

/-- Python tuple unpacking `flux, fluxerr = r` applied to a photometer
    return: a 1-tuple raises ValueError. -/
def unpack2 (r : PhotReturn) : Except PyExc (List (Option ℚ) × List ℝ) :=
  match r with
  | .two f e => .ok (f, e)
  | .one _ => .error (.valueError "not enough values to unpack (expected 2, got 1)")

/-- Embedding of do_annulus_photometry (lines 169-245).  Warnings emitted by
    the inner photometer calls are not part of the returned value.  A call
    whose mode and params disagree fails at the splatted call site with a
    TypeError, as the Python call would. -/
noncomputable def do_annulus_photometry (cog : CircOG) (eog : EllOG)
    (data : Grid) (positions : List (ℚ × ℚ)) (mode : String)
    (extents : Extents) (inner_params outer_params : ApParams)
    (error : Option Grid) (gain : Option Grid) (pixelwise_error : Bool)
    (method : String) (subpixels : ℕ) :
    Except PyExc PhotReturn :=
  if mode = "circular" then
    match inner_params, outer_params with
    | .circ r_in, .circ r_out =>
      match error with
      | none =>
        let flux_outer := (do_circular_photometry cog data positions extents
          r_out none gain pixelwise_error method subpixels).1
        let flux_inner := (do_circular_photometry cog data positions extents
          r_in none gain pixelwise_error method subpixels).1
        .ok (.one (List.zipWith nanSub flux_outer.fluxes flux_inner.fluxes))
      | some err =>
        match unpack2 (do_circular_photometry cog data positions extents
          r_out (some err) gain pixelwise_error method subpixels).1 with
        | .error e => .error e
        | .ok (flux_outer, fluxerr_o) =>
          match unpack2 (do_circular_photometry cog data positions extents
            r_in (some err) gain pixelwise_error method subpixels).1 with
          | .error e => .error e
          | .ok (flux_inner, fluxerr_i) =>
            let fluxvar := List.zipWith (fun o i => max (o ^ 2 - i ^ 2) 0)
              fluxerr_o fluxerr_i
            .ok (.two (List.zipWith nanSub flux_outer flux_inner)
              (fluxvar.map Real.sqrt))
    | _, _ => .error (.typeError "photometry call got an unexpected argument tuple")
  else if mode = "elliptical" then
    match inner_params, outer_params with
    | .ell a_in b_in th_in, .ell a_out b_out th_out =>
      match error with
      | none =>
        let flux_inner := (do_elliptical_photometry eog data positions extents
          a_in b_in th_in none gain pixelwise_error method subpixels).1
        let flux_outer := (do_elliptical_photometry eog data positions extents
          a_out b_out th_out none gain pixelwise_error method subpixels).1
        .ok (.one (List.zipWith nanSub flux_outer.fluxes flux_inner.fluxes))
      | some err =>
        match unpack2 (do_elliptical_photometry eog data positions extents
          a_in b_in th_in (some err) gain pixelwise_error method subpixels).1 with
        | .error e => .error e
        | .ok (flux_inner, fluxerr_i) =>
          match unpack2 (do_elliptical_photometry eog data positions extents
            a_out b_out th_out (some err) gain pixelwise_error method subpixels).1 with
          | .error e => .error e
          | .ok (flux_outer, fluxerr_o) =>
            let fluxvar := List.zipWith (fun o i => max (o ^ 2 - i ^ 2) 0)
              fluxerr_o fluxerr_i
            .ok (.two (List.zipWith nanSub flux_outer flux_inner)
              (fluxvar.map Real.sqrt))
    | _, _ => .error (.typeError "photometry call got an unexpected argument tuple")
  else
    match str_format annulus_mode_msg [mode] with
    | .ok m => .error (.valueError m)
    | .error e => .error e

/-- Whether the Python call returned normally (no exception). -/
def exIsOk (x : Except PyExc PhotReturn) : Bool :=
  match x with
  | .ok _ => true
  | .error _ => false

/-- The returned value of a call that returned normally ([] otherwise). -/
def exGet (x : Except PyExc PhotReturn) : PhotReturn :=
  match x with
  | .ok r => r
  | .error _ => .one []

/-- The single-aperture call the annulus composer makes for one parameter
    tuple: circular or elliptical according to the tuple's shape. -/
noncomputable def single_aperture_call (cog : CircOG) (eog : EllOG)
    (data : Grid) (positions : List (ℚ × ℚ)) (extents : Extents)
    (p : ApParams) (error : Option Grid) (gain : Option Grid)
    (pixelwise_error : Bool) (method : String) (subpixels : ℕ) : PhotReturn :=
  match p with
  | .circ r => (do_circular_photometry cog data positions extents r error gain
      pixelwise_error method subpixels).1
  | .ell a b theta => (do_elliptical_photometry eog data positions extents
      a b theta error gain pixelwise_error method subpixels).1

/-! Helper lemmas shared by several claim theorems. -/

theorem getD_range_map {α : Type} (f : ℕ → α) (n i : ℕ) (h : i < n) (d : α) :
    ((List.range n).map f).getD i d = f i := by
  rw [List.getD_eq_getElem?_getD]
  simp [List.getElem?_map, List.getElem?_range, h]

theorem getD_of_all_true (l : List Bool) (i : ℕ) (h : i < l.length)
    (h2 : ∀ b ∈ l, b = true) : l.getD i false = true := by
  rw [List.getD_eq_getElem?_getD, List.getElem?_eq_getElem h]
  exact h2 _ (List.getElem_mem h)

theorem filter_id_length_of_all (l : List Bool) (h : ∀ b ∈ l, b = true) :
    (l.filter id).length = l.length := by
  rw [List.filter_eq_self.mpr (by simpa using h)]

theorem filter_id_length_ne_of_any (l : List Bool) (h : l.any id = true) :
    (l.filter id).length ≠ 0 := by
  intro hc
  rw [List.length_eq_zero] at hc
  obtain ⟨b, hb, hbt⟩ := List.any_eq_true.mp h
  have hmem : b ∈ l.filter id := List.mem_filter.mpr ⟨hb, hbt⟩
  rw [hc] at hmem
  exact List.not_mem_nil b hmem

theorem filter_id_length_ne_length_of_not_all (l : List Bool)
    (h : l.all id = false) : (l.filter id).length ≠ l.length := by
  intro hc
  have h2 := (List.filter_length_eq_length).mp hc
  have h3 : l.all id = true := List.all_eq_true.mpr h2
  rw [h3] at h
  simp at h

theorem range_map_eq_replicate_none (n : ℕ) (f : ℕ → Option ℚ)
    (h : ∀ i < n, f i = none) : (List.range n).map f = List.replicate n none := by
  apply List.eq_replicate_iff.mpr
  refine ⟨by simp, ?_⟩
  intro b hb
  obtain ⟨i, hi, rfl⟩ := List.mem_map.mp hb
  exact h i (List.mem_range.mp hi)

theorem py_int_of_nonneg {q : ℚ} (h : 0 ≤ q) : py_int q = ⌊q⌋ := if_pos h

theorem center_index_eq_floor (lo hi : ℕ) :
    center_index lo hi = (⌊((lo : ℚ) + hi) / 2 + 1 / 2⌋).toNat := by
  unfold center_index
  rw [py_int_of_nonneg (by positivity)]

/-- C6: both single-aperture photometers resolve the method string before
    the per-position loop: center gives use_exact 0 with the subpixel count
    forced to 1, subpixel gives use_exact 0 keeping the caller-provided
    count, exact forces the count to 1 with the distinct analytic flag
    use_exact 1. -/
theorem method_resolution (s : ℕ) :
    resolve_method "center" s = (0, 1) ∧
    resolve_method "subpixel" s = (0, s) ∧
    resolve_method "exact" s = (1, 1) ∧
    (resolve_method "exact" s).1 ≠ (resolve_method "center" s).1 := by
  refine ⟨rfl, rfl, rfl, by simp [resolve_method]⟩

/-- C9: the photometers validate nothing: every method string other than
    center and subpixel, misspellings included, resolves silently to the
    exact-analytic path with use_exact 1 and the subpixel count forced
    to 1. -/
theorem method_no_validation (m : String) (s : ℕ)
    (h1 : m ≠ "center") (h2 : m ≠ "subpixel") :
    resolve_method m s = (1, 1) := by
  simp [resolve_method, h1, h2]

theorem method_no_validation_witness :
    ("exatc" : String) ≠ "center" ∧ ("exatc" : String) ≠ "subpixel" ∧
      resolve_method "exatc" 7 = (1, 1) :=
  ⟨by decide, by decide, method_no_validation "exatc" 7 (by decide) (by decide)⟩

/-- C8: in aggregate mode the variance aggregator samples the error at the
    window-center pixel whose index along each axis is
    floor(midpoint + 0.5), multiplies its square by the summed overlap
    fractions with the product clamped to be non-negative, and, when a gain
    is supplied, then adds flux / gain sampled at the same center pixel. -/
theorem find_fluxvar_aggregate_center_sample
    (data fraction err : Grid) (flux : ℚ) (gain : Option Grid)
    (imin imax jmin jmax : ℕ) :
    find_fluxvar data fraction err flux gain imin imax jmin jmax false =
      max ((err (⌊((jmin : ℚ) + jmax) / 2 + 1 / 2⌋).toNat
              (⌊((imin : ℚ) + imax) / 2 + 1 / 2⌋).toNat) ^ 2 *
            grid_sum fraction (jmax - jmin) (imax - imin)) 0 +
        (match gain with
         | some g => flux / g (⌊((jmin : ℚ) + jmax) / 2 + 1 / 2⌋).toNat
              (⌊((imin : ℚ) + imax) / 2 + 1 / 2⌋).toNat
         | none => 0) := by
  cases gain <;> simp [find_fluxvar, center_index_eq_floor]

/-- C2 failing input: in aggregate mode with a gain supplied and negative
    flux, find_fluxvar returns a negative variance, because flux/gain is
    added after the clamp; here error = 0 everywhere, fraction = 0,
    gain = 1 everywhere and flux = -1 give variance -1. -/
theorem find_fluxvar_negative_aggregate_gain :
    find_fluxvar (fun _ _ => 0) (fun _ _ => 0) (fun _ _ => 0) (-1)
      (some (fun _ _ => 1)) 0 1 0 1 false < 0 := by
  norm_num [find_fluxvar, center_index, py_int, grid_sum]

/-- C3 failing input: a mode outside circular/elliptical does abort the
    call with an exception and nothing is returned, but the exception is an
    IndexError raised while formatting the message (the template has
    positional fields 0 and 1, format receives one argument), not the
    intended ValueError. -/
theorem annulus_bad_mode_raises_indexerror :
    do_annulus_photometry (fun _ _ _ _ _ _ _ _ _ => fun _ _ => 0)
      (fun _ _ _ _ _ _ _ _ _ _ _ => fun _ _ => 0)
      (fun _ _ => 0) [] "rectangular"
      ⟨[], [], [], [], [], [], [], [], []⟩ (.circ 1) (.circ 2)
      none none true "exact" 5 =
    .error (.indexError "Replacement index out of range for positional args tuple") := by
  rfl

/-- Short-circuit of the circular photometer when every position is flagged
    out-of-data: the warning is emitted and the call returns the 1-tuple of
    all-NaN fluxes, whatever the error argument. -/
theorem do_circular_all_ood (og : CircOG) (data : Grid)
    (positions : List (ℚ × ℚ)) (extents : Extents) (radius : ℚ)
    (error : Option Grid) (gain : Option Grid) (pixelwise_error : Bool)
    (method : String) (subpixels : ℕ)
    (hlen : extents.ood_filter.length = positions.length)
    (hn : 0 < positions.length)
    (hall : ∀ b ∈ extents.ood_filter, b = true) :
    do_circular_photometry og data positions extents radius error gain
      pixelwise_error method subpixels =
    (.one (List.replicate positions.length none),
     [ood_positions positions extents.ood_filter]) := by
  have hcnt : (extents.ood_filter.filter id).length = positions.length := by
    rw [filter_id_length_of_all _ hall, hlen]
  have hc : (extents.ood_filter.filter id).length ≠ 0 ∧
      (extents.ood_filter.filter id).length = positions.length :=
    ⟨by omega, hcnt⟩
  simp only [do_circular_photometry]
  rw [if_pos hc, if_pos hc.1]
  refine Prod.ext ?_ rfl
  show PhotReturn.one _ = PhotReturn.one _
  congr 1
  apply range_map_eq_replicate_none
  intro i hi
  rw [getD_of_all_true _ i (by omega) hall]
  rfl

/-- Short-circuit of the elliptical photometer when every position is
    flagged out-of-data. -/
theorem do_elliptical_all_ood (og : EllOG) (data : Grid)
    (positions : List (ℚ × ℚ)) (extents : Extents) (a b theta : ℚ)
    (error : Option Grid) (gain : Option Grid) (pixelwise_error : Bool)
    (method : String) (subpixels : ℕ)
    (hlen : extents.ood_filter.length = positions.length)
    (hn : 0 < positions.length)
    (hall : ∀ x ∈ extents.ood_filter, x = true) :
    do_elliptical_photometry og data positions extents a b theta error gain
      pixelwise_error method subpixels =
    (.one (List.replicate positions.length none),
     [ood_positions positions extents.ood_filter]) := by
  have hcnt : (extents.ood_filter.filter id).length = positions.length := by
    rw [filter_id_length_of_all _ hall, hlen]
  have hc : (extents.ood_filter.filter id).length ≠ 0 ∧
      (extents.ood_filter.filter id).length = positions.length :=
    ⟨by omega, hcnt⟩
  simp only [do_elliptical_photometry]
  rw [if_pos hc, if_pos hc.1]
  refine Prod.ext ?_ rfl
  show PhotReturn.one _ = PhotReturn.one _
  congr 1
  apply range_map_eq_replicate_none
  intro i hi
  rw [getD_of_all_true _ i (by omega) hall]
  rfl

/-- C4: when every position is flagged out-of-data, both single-aperture
    photometers return immediately a 1-tuple holding only the all-NaN flux
    sequence; the variance output is omitted even when an error map was
    supplied. -/
theorem all_ood_returns_one_tuple
    (cog : CircOG) (eog : EllOG) (data : Grid) (positions : List (ℚ × ℚ))
    (extents : Extents) (radius a b theta : ℚ) (error : Option Grid)
    (gain : Option Grid) (pixelwise_error : Bool) (method : String)
    (subpixels : ℕ)
    (hlen : extents.ood_filter.length = positions.length)
    (hn : 0 < positions.length)
    (hall : ∀ x ∈ extents.ood_filter, x = true) :
    (do_circular_photometry cog data positions extents radius error gain
        pixelwise_error method subpixels).1 =
      .one (List.replicate positions.length none) ∧
    (do_elliptical_photometry eog data positions extents a b theta error gain
        pixelwise_error method subpixels).1 =
      .one (List.replicate positions.length none) := by
  constructor
  · rw [do_circular_all_ood cog data positions extents radius error gain
      pixelwise_error method subpixels hlen hn hall]
  · rw [do_elliptical_all_ood eog data positions extents a b theta error gain
      pixelwise_error method subpixels hlen hn hall]

/-- Concrete overlap-grid, data, error fixtures for witnesses. -/
def cogT : CircOG := fun _ _ _ _ _ _ _ _ _ => fun _ _ => 1

def eogT : EllOG := fun _ _ _ _ _ _ _ _ _ _ _ => fun _ _ => 1

def dataT : Grid := fun _ _ => 1

def errT : Grid := fun _ _ => 1

/-- One position, flagged fully out-of-data. -/
def extAllOod : Extents := ⟨[true], [0], [1], [0], [1], [0], [1], [0], [1]⟩

/-- One position, inside the data. -/
def extIn : Extents := ⟨[false], [0], [1], [0], [1], [0], [1], [0], [1]⟩

/-- Two positions, the first flagged out-of-data. -/
def extMix : Extents :=
  ⟨[true, false], [0, 0], [1, 1], [0, 0], [1, 1], [0, 0], [1, 1], [0, 0], [1, 1]⟩

theorem all_ood_returns_one_tuple_witness :
    (do_circular_photometry cogT dataT [((1 : ℚ), (2 : ℚ))] extAllOod 1
        (some errT) none true "exact" 5).1 = .one [none] ∧
    (do_elliptical_photometry eogT dataT [((1 : ℚ), (2 : ℚ))] extAllOod 1 1 0
        (some errT) none true "exact" 5).1 = .one [none] :=
  all_ood_returns_one_tuple cogT eogT dataT [((1 : ℚ), (2 : ℚ))] extAllOod
    1 1 1 0 (some errT) none true "exact" 5 (by decide) (by decide) (by decide)

/-- C10: with an error map supplied and every position out-of-data, the
    annulus composer does not return at all: the first inner photometer
    call returns a 1-tuple and the unconditional two-value unpacking raises
    a ValueError, instead of propagating the all-NaN flux contract. -/
theorem annulus_all_ood_with_error_crashes
    (cog : CircOG) (eog : EllOG) (data : Grid) (positions : List (ℚ × ℚ))
    (extents : Extents) (r_in r_out : ℚ) (err : Grid) (gain : Option Grid)
    (pixelwise_error : Bool) (method : String) (subpixels : ℕ)
    (hlen : extents.ood_filter.length = positions.length)
    (hn : 0 < positions.length)
    (hall : ∀ x ∈ extents.ood_filter, x = true) :
    do_annulus_photometry cog eog data positions "circular" extents
      (.circ r_in) (.circ r_out) (some err) gain pixelwise_error method
      subpixels =
    .error (.valueError "not enough values to unpack (expected 2, got 1)") := by
  simp only [do_annulus_photometry]
  rw [do_circular_all_ood cog data positions extents r_out (some err) gain
    pixelwise_error method subpixels hlen hn hall]
  simp [unpack2]

theorem annulus_all_ood_with_error_crashes_witness :
    do_annulus_photometry cogT eogT dataT [((1 : ℚ), (2 : ℚ))] "circular"
      extAllOod (.circ 1) (.circ 2) (some errT) none true "exact" 5 =
    .error (.valueError "not enough values to unpack (expected 2, got 1)") :=
  annulus_all_ood_with_error_crashes cogT eogT dataT [((1 : ℚ), (2 : ℚ))]
    extAllOod 1 2 errT none true "exact" 5 (by decide) (by decide) (by decide)

/-- Shape of every normal return of the annulus composer: the flux is the
    elementwise difference of the outer and inner single-aperture fluxes,
    and, when an error map is supplied, the second element is the square
    root of the clamped difference of squared single-aperture errors. -/
theorem annulus_ok_shape
    (cog : CircOG) (eog : EllOG) (data : Grid) (positions : List (ℚ × ℚ))
    (mode : String) (extents : Extents) (inner_params outer_params : ApParams)
    (error : Option Grid) (gain : Option Grid) (pixelwise_error : Bool)
    (method : String) (subpixels : ℕ)
    (h : exIsOk (do_annulus_photometry cog eog data positions mode extents
          inner_params outer_params error gain pixelwise_error method
          subpixels) = true) :
    exGet (do_annulus_photometry cog eog data positions mode extents
        inner_params outer_params error gain pixelwise_error method
        subpixels) =
      match error with
      | none => PhotReturn.one (List.zipWith nanSub
          (single_aperture_call cog eog data positions extents outer_params
            error gain pixelwise_error method subpixels).fluxes
          (single_aperture_call cog eog data positions extents inner_params
            error gain pixelwise_error method subpixels).fluxes)
      | some _ => PhotReturn.two
          (List.zipWith nanSub
            (single_aperture_call cog eog data positions extents outer_params
              error gain pixelwise_error method subpixels).fluxes
            (single_aperture_call cog eog data positions extents inner_params
              error gain pixelwise_error method subpixels).fluxes)
          ((List.zipWith (fun o i => max (o ^ 2 - i ^ 2) 0)
            (single_aperture_call cog eog data positions extents outer_params
              error gain pixelwise_error method subpixels).errs
            (single_aperture_call cog eog data positions extents inner_params
              error gain pixelwise_error method subpixels).errs).map
            Real.sqrt) := by
  by_cases hm : mode = "circular"
  · subst hm
    cases inner_params with
    | circ r_in =>
      cases outer_params with
      | circ r_out =>
        cases error with
        | none =>
          simp [do_annulus_photometry, exGet, single_aperture_call]
        | some err =>
          simp only [do_annulus_photometry, if_pos] at h ⊢
          rcases hO : (do_circular_photometry cog data positions extents r_out
              (some err) gain pixelwise_error method subpixels).1 with f_o | ⟨f_o, e_o⟩
          · rw [hO] at h
            simp [unpack2, exIsOk] at h
          · rcases hI : (do_circular_photometry cog data positions extents r_in
                (some err) gain pixelwise_error method subpixels).1 with f_i | ⟨f_i, e_i⟩
            · rw [hO, hI] at h
              simp [unpack2, exIsOk] at h
            · simp [unpack2, exGet, single_aperture_call, hO, hI,
                PhotReturn.fluxes, PhotReturn.errs]
      | ell a2 b2 t2 =>
        simp [do_annulus_photometry, exIsOk] at h
    | ell a1 b1 t1 =>
      cases outer_params <;> simp [do_annulus_photometry, exIsOk] at h
  · by_cases hm2 : mode = "elliptical"
    · subst hm2
      cases inner_params with
      | ell a_in b_in t_in =>
        cases outer_params with
        | ell a_out b_out t_out =>
          cases error with
          | none =>
            simp [do_annulus_photometry, exGet, single_aperture_call]
          | some err =>
            simp only [do_annulus_photometry, if_pos] at h ⊢
            rcases hI : (do_elliptical_photometry eog data positions extents
                a_in b_in t_in (some err) gain pixelwise_error method
                subpixels).1 with f_i | ⟨f_i, e_i⟩
            · rw [hI] at h
              simp [unpack2, exIsOk] at h
            · rcases hO : (do_elliptical_photometry eog data positions extents
                  a_out b_out t_out (some err) gain pixelwise_error method
                  subpixels).1 with f_o | ⟨f_o, e_o⟩
              · rw [hI, hO] at h
                simp [unpack2, exIsOk] at h
              · simp [unpack2, exGet, single_aperture_call, hO, hI, hm,
                  PhotReturn.fluxes, PhotReturn.errs]
        | circ r2 =>
          simp [do_annulus_photometry, hm, exIsOk] at h
      | circ r1 =>
        cases outer_params <;> simp [do_annulus_photometry, hm, exIsOk] at h
    · simp [do_annulus_photometry, hm, hm2, str_format, annulus_mode_msg,
        exIsOk] at h

/-- C1: whenever the annulus composer returns, the returned flux at every
    position is exactly the outer single-aperture flux minus the inner
    single-aperture flux for the same geometry, method and subpixel
    parameters, in both the with-error and without-error paths. -/
theorem annulus_flux_is_outer_minus_inner
    (cog : CircOG) (eog : EllOG) (data : Grid) (positions : List (ℚ × ℚ))
    (mode : String) (extents : Extents) (inner_params outer_params : ApParams)
    (error : Option Grid) (gain : Option Grid) (pixelwise_error : Bool)
    (method : String) (subpixels : ℕ)
    (h : exIsOk (do_annulus_photometry cog eog data positions mode extents
          inner_params outer_params error gain pixelwise_error method
          subpixels) = true) :
    (exGet (do_annulus_photometry cog eog data positions mode extents
        inner_params outer_params error gain pixelwise_error method
        subpixels)).fluxes =
      List.zipWith nanSub
        (single_aperture_call cog eog data positions extents outer_params
          error gain pixelwise_error method subpixels).fluxes
        (single_aperture_call cog eog data positions extents inner_params
          error gain pixelwise_error method subpixels).fluxes := by
  rw [annulus_ok_shape cog eog data positions mode extents inner_params
    outer_params error gain pixelwise_error method subpixels h]
  cases error <;> simp [PhotReturn.fluxes]

theorem annulus_flux_is_outer_minus_inner_witness :
    (exGet (do_annulus_photometry cogT eogT dataT [((1 : ℚ), (2 : ℚ))]
        "circular" extIn (.circ 1) (.circ 2) none none true "exact"
        5)).fluxes =
      List.zipWith nanSub
        (single_aperture_call cogT eogT dataT [((1 : ℚ), (2 : ℚ))] extIn
          (.circ 2) none none true "exact" 5).fluxes
        (single_aperture_call cogT eogT dataT [((1 : ℚ), (2 : ℚ))] extIn
          (.circ 1) none none true "exact" 5).fluxes :=
  annulus_flux_is_outer_minus_inner cogT eogT dataT [((1 : ℚ), (2 : ℚ))]
    "circular" extIn (.circ 1) (.circ 2) none none true "exact" 5 (by rfl)

/-- C7: with an error map supplied, every returned annulus error is the
    square root of max(outer fluxerr squared minus inner fluxerr squared,
    0), where the fluxerrs are the second elements returned by the two
    single-aperture calls. -/
theorem annulus_err_is_sqrt_clamped_sq_diff
    (cog : CircOG) (eog : EllOG) (data : Grid) (positions : List (ℚ × ℚ))
    (mode : String) (extents : Extents) (inner_params outer_params : ApParams)
    (err : Grid) (gain : Option Grid) (pixelwise_error : Bool)
    (method : String) (subpixels : ℕ)
    (h : exIsOk (do_annulus_photometry cog eog data positions mode extents
          inner_params outer_params (some err) gain pixelwise_error method
          subpixels) = true) :
    (exGet (do_annulus_photometry cog eog data positions mode extents
        inner_params outer_params (some err) gain pixelwise_error method
        subpixels)).errs =
      List.zipWith (fun o i => Real.sqrt (max (o ^ 2 - i ^ 2) 0))
        (single_aperture_call cog eog data positions extents outer_params
          (some err) gain pixelwise_error method subpixels).errs
        (single_aperture_call cog eog data positions extents inner_params
          (some err) gain pixelwise_error method subpixels).errs := by
  rw [annulus_ok_shape cog eog data positions mode extents inner_params
    outer_params (some err) gain pixelwise_error method subpixels h]
  simp [PhotReturn.errs, List.map_zipWith]

theorem annulus_err_is_sqrt_clamped_sq_diff_witness :
    (exGet (do_annulus_photometry cogT eogT dataT [((1 : ℚ), (2 : ℚ))]
        "circular" extIn (.circ 1) (.circ 2) (some errT) none true "exact"
        5)).errs =
      List.zipWith (fun o i => Real.sqrt (max (o ^ 2 - i ^ 2) 0))
        (single_aperture_call cogT eogT dataT [((1 : ℚ), (2 : ℚ))] extIn
          (.circ 2) (some errT) none true "exact" 5).errs
        (single_aperture_call cogT eogT dataT [((1 : ℚ), (2 : ℚ))] extIn
          (.circ 1) (some errT) none true "exact" 5).errs :=
  annulus_err_is_sqrt_clamped_sq_diff cogT eogT dataT [((1 : ℚ), (2 : ℚ))]
    "circular" extIn (.circ 1) (.circ 2) errT none true "exact" 5 (by rfl)

/-- When not every position is flagged, the circular photometer runs its
    loop: the flux list holds NaN at flagged indices and the computed
    window sum elsewhere, and the warning block fires iff some position is
    flagged. -/
theorem do_circular_not_all_ood (og : CircOG) (data : Grid)
    (positions : List (ℚ × ℚ)) (extents : Extents) (radius : ℚ)
    (error : Option Grid) (gain : Option Grid) (pixelwise_error : Bool)
    (method : String) (subpixels : ℕ)
    (hlen : extents.ood_filter.length = positions.length)
    (hnotall : extents.ood_filter.all id = false) :
    (do_circular_photometry og data positions extents radius error gain
        pixelwise_error method subpixels).1.fluxes =
      (List.range positions.length).map (fun i =>
        if extents.ood_filter.getD i false then none
        else some (aperture_flux_at data
          (circ_fraction og extents radius (resolve_method method subpixels).1
            (resolve_method method subpixels).2 i) extents i)) ∧
    (do_circular_photometry og data positions extents radius error gain
        pixelwise_error method subpixels).2 =
      (if (extents.ood_filter.filter id).length ≠ 0 then
        [ood_positions positions extents.ood_filter] else []) := by
  have hne : (extents.ood_filter.filter id).length ≠ positions.length := by
    rw [← hlen]
    exact filter_id_length_ne_length_of_not_all _ hnotall
  have hc : ¬((extents.ood_filter.filter id).length ≠ 0 ∧
      (extents.ood_filter.filter id).length = positions.length) := by
    rintro ⟨_, hx⟩
    exact hne hx
  simp only [do_circular_photometry]
  rw [if_neg hc]
  cases error <;> simp [PhotReturn.fluxes]

/-- When not every position is flagged, the elliptical photometer behaves
    like the circular one. -/
theorem do_elliptical_not_all_ood (og : EllOG) (data : Grid)
    (positions : List (ℚ × ℚ)) (extents : Extents) (a b theta : ℚ)
    (error : Option Grid) (gain : Option Grid) (pixelwise_error : Bool)
    (method : String) (subpixels : ℕ)
    (hlen : extents.ood_filter.length = positions.length)
    (hnotall : extents.ood_filter.all id = false) :
    (do_elliptical_photometry og data positions extents a b theta error gain
        pixelwise_error method subpixels).1.fluxes =
      (List.range positions.length).map (fun i =>
        if extents.ood_filter.getD i false then none
        else some (aperture_flux_at data
          (ell_fraction og extents a b theta
            (resolve_method method subpixels).1
            (resolve_method method subpixels).2 i) extents i)) ∧
    (do_elliptical_photometry og data positions extents a b theta error gain
        pixelwise_error method subpixels).2 =
      (if (extents.ood_filter.filter id).length ≠ 0 then
        [ood_positions positions extents.ood_filter] else []) := by
  have hne : (extents.ood_filter.filter id).length ≠ positions.length := by
    rw [← hlen]
    exact filter_id_length_ne_length_of_not_all _ hnotall
  have hc : ¬((extents.ood_filter.filter id).length ≠ 0 ∧
      (extents.ood_filter.filter id).length = positions.length) := by
    rintro ⟨_, hx⟩
    exact hne hx
  simp only [do_elliptical_photometry]
  rw [if_neg hc]
  cases error <;> simp [PhotReturn.fluxes]

/-- C5: when some but not all positions are flagged out-of-data, both
    photometers set the flux of every flagged position to NaN, emit one
    warning naming exactly the offending positions, process the remaining
    positions normally (their flux is the computed overlap-weighted window
    sum), and the returned values are exactly these regardless of the
    warning. -/
theorem partial_ood_flags_warns_and_processes
    (cog : CircOG) (eog : EllOG) (data : Grid) (positions : List (ℚ × ℚ))
    (extents : Extents) (radius a b theta : ℚ) (error : Option Grid)
    (gain : Option Grid) (pixelwise_error : Bool) (method : String)
    (subpixels : ℕ)
    (hlen : extents.ood_filter.length = positions.length)
    (hsome : extents.ood_filter.any id = true)
    (hnotall : extents.ood_filter.all id = false) :
    (∀ i < positions.length,
      (do_circular_photometry cog data positions extents radius error gain
          pixelwise_error method subpixels).1.fluxes.getD i (some 0) =
        (if extents.ood_filter.getD i false then none
         else some (aperture_flux_at data
           (circ_fraction cog extents radius
             (resolve_method method subpixels).1
             (resolve_method method subpixels).2 i) extents i))) ∧
    (do_circular_photometry cog data positions extents radius error gain
        pixelwise_error method subpixels).2 =
      [ood_positions positions extents.ood_filter] ∧
    (∀ i < positions.length,
      (do_elliptical_photometry eog data positions extents a b theta error
          gain pixelwise_error method subpixels).1.fluxes.getD i (some 0) =
        (if extents.ood_filter.getD i false then none
         else some (aperture_flux_at data
           (ell_fraction eog extents a b theta
             (resolve_method method subpixels).1
             (resolve_method method subpixels).2 i) extents i))) ∧
    (do_elliptical_photometry eog data positions extents a b theta error gain
        pixelwise_error method subpixels).2 =
      [ood_positions positions extents.ood_filter] := by
  obtain ⟨hcf, hcw⟩ := do_circular_not_all_ood cog data positions extents
    radius error gain pixelwise_error method subpixels hlen hnotall
  obtain ⟨hef, hew⟩ := do_elliptical_not_all_ood eog data positions extents
    a b theta error gain pixelwise_error method subpixels hlen hnotall
  have hfire := filter_id_length_ne_of_any _ hsome
  refine ⟨?_, ?_, ?_, ?_⟩
  · intro i hi
    rw [hcf, getD_range_map _ _ _ hi]
  · rw [hcw, if_pos hfire]
  · intro i hi
    rw [hef, getD_range_map _ _ _ hi]
  · rw [hew, if_pos hfire]

theorem partial_ood_flags_warns_and_processes_witness :
    (∀ i < ([((1 : ℚ), (2 : ℚ)), ((3 : ℚ), (4 : ℚ))] : List (ℚ × ℚ)).length,
      (do_circular_photometry cogT dataT
          [((1 : ℚ), (2 : ℚ)), ((3 : ℚ), (4 : ℚ))] extMix 1 (some errT) none
          true "exact" 5).1.fluxes.getD i (some 0) =
        (if extMix.ood_filter.getD i false then none
         else some (aperture_flux_at dataT
           (circ_fraction cogT extMix 1 (resolve_method "exact" 5).1
             (resolve_method "exact" 5).2 i) extMix i))) ∧
    (do_circular_photometry cogT dataT
        [((1 : ℚ), (2 : ℚ)), ((3 : ℚ), (4 : ℚ))] extMix 1 (some errT) none
        true "exact" 5).2 =
      [ood_positions [((1 : ℚ), (2 : ℚ)), ((3 : ℚ), (4 : ℚ))]
        extMix.ood_filter] ∧
    (∀ i < ([((1 : ℚ), (2 : ℚ)), ((3 : ℚ), (4 : ℚ))] : List (ℚ × ℚ)).length,
      (do_elliptical_photometry eogT dataT
          [((1 : ℚ), (2 : ℚ)), ((3 : ℚ), (4 : ℚ))] extMix 1 1 0 (some errT)
          none true "exact" 5).1.fluxes.getD i (some 0) =
        (if extMix.ood_filter.getD i false then none
         else some (aperture_flux_at dataT
           (ell_fraction eogT extMix 1 1 0 (resolve_method "exact" 5).1
             (resolve_method "exact" 5).2 i) extMix i))) ∧
    (do_elliptical_photometry eogT dataT
        [((1 : ℚ), (2 : ℚ)), ((3 : ℚ), (4 : ℚ))] extMix 1 1 0 (some errT)
        none true "exact" 5).2 =
      [ood_positions [((1 : ℚ), (2 : ℚ)), ((3 : ℚ), (4 : ℚ))]
        extMix.ood_filter] :=
  partial_ood_flags_warns_and_processes cogT eogT dataT
    [((1 : ℚ), (2 : ℚ)), ((3 : ℚ), (4 : ℚ))] extMix 1 1 1 0 (some errT) none
    true "exact" 5 (by decide) (by decide) (by decide)
